import Mathlib

/-!
Shallow embedding of the core of `rserran/python-mcp-demos`:
the Cosmos DB backed key-value store (`src/servers/cosmosdb_store.py`)
and the two middleware classes (`src/servers/auth_mcp.py`,
`src/servers/opentelemetry_middleware.py`).

Modelling conventions:
* Timestamps (`datetime`) and durations (floats of seconds) are rationals.
  `datetime` arithmetic and `isoformat`/`fromisoformat` round-tripping are
  exact, so a serialized timestamp is modelled by the timestamp it denotes.
* Python `dict[str, Any]` values stored by the store are opaque to the store
  (it only copies them), modelled as association lists of strings.
* Exceptions are modelled with `Except`; a `try`/`except` block becomes a
  `match` on the `Except` value of the guarded calls.  Stateful operations
  take the backing container's document list and return the updated list
  alongside the result, so side effects that happen before an exception
  persist, as in Python.
* Backend (Cosmos) failures are injected through a `ContainerFaults` record
  of oracles, so theorems can quantify over arbitrary backend behavior.
-/

/-- Timestamps (seconds since epoch) and second-valued durations. -/
abbrev Time := ℚ

/-- Opaque stored value: a Python `dict[str, Any]` as the store sees it. -/
abbrev ValueDict := List (String × String)

/-- In-memory `ManagedEntry`.  The Python constructor defaults `created_at`
to `datetime.now(timezone.utc)`, so after construction `created_at` is never
`None`; the field is therefore total here.  See `ManagedEntry.construct`. -/
structure ManagedEntry where
  value : ValueDict
  created_at : Time
  expires_at : Option Time
deriving DecidableEq, Repr

/-- Python `ManagedEntry.__init__`: `self.created_at = created_at or
datetime.now(timezone.utc)` (a `datetime` object is always truthy). -/
def ManagedEntry.construct (now : Time) (value : ValueDict)
    (created_at : Option Time) (expires_at : Option Time) : ManagedEntry :=
  { value := value, created_at := created_at.getD now, expires_at := expires_at }

/-- Python `ManagedEntry.is_expired`: false when `expires_at is None`, else
`datetime.now(timezone.utc) > self.expires_at`. -/
def ManagedEntry.is_expired (now : Time) (e : ManagedEntry) : Bool :=
  match e.expires_at with
  | none => false
  | some t => decide (now > t)

/-- Python `ManagedEntry.ttl_seconds`: `None` when no expiration, otherwise
`max(0.0, (expires_at - now).total_seconds())`. -/
def ManagedEntry.ttl_seconds (now : Time) (e : ManagedEntry) : Option Time :=
  match e.expires_at with
  | none => none
  | some t => some (max 0 (t - now))

/-- Serialized form of a `ManagedEntry` (the `entry` sub-document).  An
ISO-8601 string is modelled by the timestamp it denotes; `None` by `none`.
`isoformat` never yields the empty string, so a `some` field is truthy. -/
structure EntryDict where
  value : ValueDict
  created_at : Option Time
  expires_at : Option Time
deriving DecidableEq, Repr

/-- Python `ManagedEntry.to_dict`: `created_at` is always a `datetime`
(truthy), `expires_at` serializes to `None` when absent. -/
def ManagedEntry.to_dict (e : ManagedEntry) : EntryDict :=
  { value := e.value, created_at := some e.created_at, expires_at := e.expires_at }

/-- Python `ManagedEntry.from_dict`: the `if data.get(...)` truthiness tests
succeed exactly on `some` fields (nonempty ISO strings); the `value` field
defaults to `{}` but `to_dict` always writes it, so it is total here. -/
def ManagedEntry.from_dict (now : Time) (data : EntryDict) : ManagedEntry :=
  let created_at : Option Time :=
    match data.created_at with
    | some t => some t
    | none => none
  let expires_at : Option Time :=
    match data.expires_at with
    | some t => some t
    | none => none
  ManagedEntry.construct now data.value created_at expires_at

/-- Persisted Cosmos document as written by `CosmosDBStore.put`. -/
structure Document where
  id : String
  collection : String
  key : String
  entry : EntryDict
  ttl : Option ℤ
deriving DecidableEq, Repr

/-- Exceptions raised by the Cosmos SDK: `CosmosResourceNotFoundError`, or
any other transport/backend exception carrying a message. -/
inductive CosmosErr where
  | notFound
  | other (msg : String)
deriving DecidableEq, Repr

/-- Exceptions the store itself can let escape: the `ValueError` of
`put_many`, or a re-raised backend exception on the write path. -/
inductive PyErr where
  | valueError (msg : String)
  | backend (e : CosmosErr)
deriving DecidableEq, Repr

/-- Fault-injection oracles standing for arbitrary backend behavior: a
`some msg` makes the corresponding container call raise a generic
transport/backend exception instead of acting. -/
structure ContainerFaults where
  readFault : String → String → Option String
  upsertFault : Document → Option String
  deleteFault : String → String → Option String

/-- The container's documents, keyed by `(id, partition key)`. -/
abbrev Docs := List Document

/-- Document lookup under Cosmos semantics: at most one document per
`(id, partition key)` pair is visible. -/
def Docs.lookup (docs : Docs) (docId pk : String) : Option Document :=
  docs.find? (fun d => d.id == docId && d.collection == pk)

/-- Cosmos `container.read_item(item, partition_key)`: raises
`CosmosResourceNotFoundError` when absent, or an injected transport error. -/
def ContainerFaults.read_item (f : ContainerFaults) (docs : Docs)
    (docId pk : String) : Except CosmosErr Document :=
  match f.readFault docId pk with
  | some msg => .error (.other msg)
  | none =>
    match docs.lookup docId pk with
    | some d => .ok d
    | none => .error .notFound

/-- Cosmos `container.upsert_item(body)`: replaces any document with the
same `(id, partition key)`, or raises an injected transport error. -/
def ContainerFaults.upsert_item (f : ContainerFaults) (docs : Docs)
    (d : Document) : Except CosmosErr Docs :=
  match f.upsertFault d with
  | some msg => .error (.other msg)
  | none =>
    .ok (d :: docs.filter (fun x => !(x.id == d.id && x.collection == d.collection)))

/-- Cosmos `container.delete_item(item, partition_key)`: raises
`CosmosResourceNotFoundError` when the document is absent, or an injected
transport error. -/
def ContainerFaults.delete_item (f : ContainerFaults) (docs : Docs)
    (docId pk : String) : Except CosmosErr Docs :=
  match f.deleteFault docId pk with
  | some msg => .error (.other msg)
  | none =>
    match docs.lookup docId pk with
    | some _ => .ok (docs.filter (fun d => !(d.id == docId && d.collection == pk)))
    | none => .error .notFound

/-! ## CosmosDBStore operations

Each operation takes the fault oracles `f`, the current documents `docs`,
the clock `now`, and the store's `default_collection` `dc`.  It returns the
updated documents together with the Python result: `Except PyErr α` for
operations that can raise, a plain value for operations whose `try` block
catches every exception. -/

/-- Python `collection = collection or self.default_collection`: `None` and
the empty string (falsy) both resolve to the default collection. -/
def CosmosDBStore.resolveCollection (dc : String) (collection : Option String) : String :=
  match collection with
  | none => dc
  | some s => if s = "" then dc else s

/-- Python `CosmosDBStore._make_document_id`: `f"{collection}:{key}"`. -/
def CosmosDBStore._make_document_id (collection key : String) : String :=
  collection ++ ":" ++ key

/-- Python `CosmosDBStore.delete`: true on deletion, false on
`CosmosResourceNotFoundError`, false (logged) on any other exception.  The
`try` catches everything, so the function cannot raise and returns `Bool`. -/
def CosmosDBStore.delete (f : ContainerFaults) (docs : Docs) (dc : String)
    (key : String) (collection : Option String) : Docs × Bool :=
  let coll := CosmosDBStore.resolveCollection dc collection
  let docId := CosmosDBStore._make_document_id coll key
  match f.delete_item docs docId coll with
  | .ok docs1 => (docs1, true)
  | .error .notFound => (docs, false)
  | .error (.other _) => (docs, false)

/-- Python `CosmosDBStore.delete_many`: sequential `delete` per key,
counting the successes. -/
def CosmosDBStore.delete_many (f : ContainerFaults) (docs : Docs) (dc : String)
    (keys : List String) (collection : Option String) : Docs × ℕ :=
  match keys with
  | [] => (docs, 0)
  | k :: ks =>
    let p := CosmosDBStore.delete f docs dc k collection
    let q := CosmosDBStore.delete_many f p.1 dc ks collection
    (q.1, (if p.2 then 1 else 0) + q.2)

/-- Python `CosmosDBStore.get`: read, lazily expire, degrade every
exception to `None`.  Both `except` arms return `None`, so the result is
always `.ok`; the `Except` layer records that the `try` covers the body. -/
def CosmosDBStore.get (f : ContainerFaults) (docs : Docs) (now : Time)
    (dc : String) (key : String) (collection : Option String) :
    Docs × Except PyErr (Option ValueDict) :=
  let coll := CosmosDBStore.resolveCollection dc collection
  let docId := CosmosDBStore._make_document_id coll key
  match f.read_item docs docId coll with
  | .ok item =>
    let entry := ManagedEntry.from_dict now item.entry
    if entry.is_expired now then
      let (docs1, _) := CosmosDBStore.delete f docs dc key (some coll)
      (docs1, .ok none)
    else
      (docs, .ok (some entry.value))
  | .error .notFound => (docs, .ok none)
  | .error (.other _) => (docs, .ok none)

/-- Python `CosmosDBStore.get_many`: a sequential comprehension of `get`
calls; an exception from any `get` would propagate (none can occur). -/
def CosmosDBStore.get_many (f : ContainerFaults) (docs : Docs) (now : Time)
    (dc : String) (keys : List String) (collection : Option String) :
    Docs × Except PyErr (List (Option ValueDict)) :=
  match keys with
  | [] => (docs, .ok [])
  | k :: ks =>
    let p := CosmosDBStore.get f docs now dc k collection
    match p.2 with
    | .error e => (p.1, .error e)
    | .ok v =>
      let q := CosmosDBStore.get_many f p.1 now dc ks collection
      match q.2 with
      | .error e => (q.1, .error e)
      | .ok vs => (q.1, .ok (v :: vs))

/-- Python `CosmosDBStore.ttl`: like `get` but also returns
`entry.ttl_seconds`; expired or failing reads yield `(None, None)`. -/
def CosmosDBStore.ttl (f : ContainerFaults) (docs : Docs) (now : Time)
    (dc : String) (key : String) (collection : Option String) :
    Docs × Except PyErr (Option ValueDict × Option Time) :=
  let coll := CosmosDBStore.resolveCollection dc collection
  let docId := CosmosDBStore._make_document_id coll key
  match f.read_item docs docId coll with
  | .ok item =>
    let entry := ManagedEntry.from_dict now item.entry
    if entry.is_expired now then
      let (docs1, _) := CosmosDBStore.delete f docs dc key (some coll)
      (docs1, .ok (none, none))
    else
      (docs, .ok (some entry.value, entry.ttl_seconds now))
  | .error .notFound => (docs, .ok (none, none))
  | .error (.other _) => (docs, .ok (none, none))

/-- Python `CosmosDBStore.ttl_many`: sequential `ttl` per key. -/
def CosmosDBStore.ttl_many (f : ContainerFaults) (docs : Docs) (now : Time)
    (dc : String) (keys : List String) (collection : Option String) :
    Docs × Except PyErr (List (Option ValueDict × Option Time)) :=
  match keys with
  | [] => (docs, .ok [])
  | k :: ks =>
    let p := CosmosDBStore.ttl f docs now dc k collection
    match p.2 with
    | .error e => (p.1, .error e)
    | .ok v =>
      let q := CosmosDBStore.ttl_many f p.1 now dc ks collection
      match q.2 with
      | .error e => (q.1, .error e)
      | .ok vs => (q.1, .ok (v :: vs))

/-- Document built by `CosmosDBStore.put` before the upsert.  `float(ttl)`
is exact, `int(ttl_seconds)` truncates toward zero, which on the positive
branch equals the floor. -/
def CosmosDBStore.putDocument (now : Time) (dc : String) (key : String)
    (value : ValueDict) (collection : Option String) (ttl : Option Time) : Document :=
  let coll := CosmosDBStore.resolveCollection dc collection
  let docId := CosmosDBStore._make_document_id coll key
  let expires_at : Option Time :=
    match ttl with
    | none => none
    | some t => if t > 0 then some (now + t) else none
  let cosmos_ttl : Option ℤ :=
    match ttl with
    | none => none
    | some t => if t > 0 then some ⌊t⌋ else none
  let entry : ManagedEntry :=
    { value := value, created_at := now, expires_at := expires_at }
  { id := docId, collection := coll, key := key,
    entry := entry.to_dict, ttl := cosmos_ttl }

/-- Python `CosmosDBStore.put`: build the document and upsert it; a backend
write failure is logged and re-raised. -/
def CosmosDBStore.put (f : ContainerFaults) (docs : Docs) (now : Time)
    (dc : String) (key : String) (value : ValueDict) (collection : Option String)
    (ttl : Option Time) : Docs × Except PyErr Unit :=
  let document := CosmosDBStore.putDocument now dc key value collection ttl
  match f.upsert_item docs document with
  | .ok docs1 => (docs1, .ok ())
  | .error e => (docs, .error (.backend e))

/-- Python `CosmosDBStore.put_many`: raises `ValueError` on length mismatch
before any write, else writes the zipped pairs in order via `put`, stopping
at the first write failure. -/
def CosmosDBStore.putPairs (f : ContainerFaults) (docs : Docs) (now : Time)
    (dc : String) (pairs : List (String × ValueDict)) (collection : Option String)
    (ttl : Option Time) : Docs × Except PyErr Unit :=
  match pairs with
  | [] => (docs, .ok ())
  | (k, v) :: ps =>
    let p := CosmosDBStore.put f docs now dc k v collection ttl
    match p.2 with
    | .error e => (p.1, .error e)
    | .ok _ => CosmosDBStore.putPairs f p.1 now dc ps collection ttl

/-- Python `CosmosDBStore.put_many` proper: the length guard, then the
`zip` loop. -/
def CosmosDBStore.put_many (f : ContainerFaults) (docs : Docs) (now : Time)
    (dc : String) (keys : List String) (values : List ValueDict)
    (collection : Option String) (ttl : Option Time) : Docs × Except PyErr Unit :=
  if keys.length ≠ values.length then
    (docs, .error (.valueError "Number of keys must match number of values"))
  else
    CosmosDBStore.putPairs f docs now dc (keys.zip values) collection ttl

/-! ## UserAuthMiddleware (`auth_mcp.py`) -/

/-- Access-token object as `get_access_token` returns it: an object exposing
a `claims` mapping (claim values are the identity strings `oid`/`sub`). -/
structure AccessToken where
  claims : List (String × String)
deriving DecidableEq, Repr

/-- Python `dict.get(key)` / `dict.get(key, default)` on a claims mapping. -/
def AccessToken.getClaim (t : AccessToken) (k : String) : Option String :=
  (t.claims.find? (fun p => p.1 == k)).map (fun p => p.2)

/-- Python `UserAuthMiddleware._get_user_id`: `None` without a token (or a
token lacking `claims`), else `token.claims.get("oid", token.claims.get("sub"))`. -/
def UserAuthMiddleware._get_user_id (token : Option AccessToken) : Option String :=
  match token with
  | none => none
  | some t =>
    match t.getClaim "oid" with
    | some v => some v
    | none => t.getClaim "sub"

/-- Per-request FastMCP context state, observed through `get_state`: a key
that was never `set_state` and a key set to `None` both read back as `none`,
exactly as `Context.get_state` returns `None` for both. -/
abbrev RequestState := List (String × Option String)

/-- Python `Context.set_state(key, value)`. -/
def RequestState.set_state (st : RequestState) (k : String) (v : Option String) :
    RequestState :=
  (k, v) :: st.filter (fun p => p.1 ≠ k)

/-- Python `Context.get_state(key)`. -/
def RequestState.get_state (st : RequestState) (k : String) : Option String :=
  match st.find? (fun p => p.1 == k) with
  | some p => p.2
  | none => none

/-- Python `UserAuthMiddleware.on_call_tool` (and the identical
`on_read_resource`) up to the `call_next` call: resolve the user id and
publish it into the context state when a FastMCP context exists.  The
wrapped handler then runs with the returned state. -/
def UserAuthMiddleware.on_call_tool (token : Option AccessToken)
    (hasFastmcpContext : Bool) (st : RequestState) : RequestState :=
  let user_id := UserAuthMiddleware._get_user_id token
  if hasFastmcpContext then st.set_state "user_id" user_id else st

/-! ## OpenTelemetryMiddleware (`opentelemetry_middleware.py`) -/

/-- Span attribute values used by the middleware. -/
inductive AttrVal where
  | str (s : String)
  | bool (b : Bool)
deriving DecidableEq, Repr

/-- Span status as set through `span.set_status`. -/
inductive SpanStatus where
  | unset
  | ok
  | error (msg : String)
deriving DecidableEq, Repr

/-- Observability span: name, attributes in the order they were set, the
final status, and the exceptions recorded via `record_exception`
(represented by their string form). -/
structure Span where
  name : String
  attributes : List (String × AttrVal)
  status : SpanStatus
  recorded : List String
deriving DecidableEq, Repr

/-- Last-set value of an attribute on a span (`set_attribute` overwrites). -/
def Span.getAttr (s : Span) (k : String) : Option AttrVal :=
  (s.attributes.reverse.find? (fun p => p.1 == k)).map (fun p => p.2)

/-- Python `OpenTelemetryMiddleware._span_name`: `if target:` is a
truthiness test, so an empty target yields the bare method name. -/
def OpenTelemetryMiddleware._span_name (method_name : String)
    (target : Option String) : String :=
  match target with
  | some t => if t = "" then method_name else method_name ++ " " ++ t
  | none => method_name

/-- Outcome of the continuation `call_next`: a result, or an exception
represented by its string form (`str(e)`). -/
abbrev HandlerOutcome (α : Type) := Except String α

/-- Python `OpenTelemetryMiddleware.on_call_tool`.  `methodAttr` and
`nameAttr` model `getattr(context, "method", ...)`/`context.message.name`
(`none` when the attribute is missing, which `str(...) or default` treats
like the empty string); `toolArgsJson` is the `_safe_json_str` result for
`context.message.arguments`.  Returns the finished span and the propagated
outcome. -/
def OpenTelemetryMiddleware.on_call_tool {α : Type} (methodAttr nameAttr : Option String)
    (toolArgsJson : Option String) (next : HandlerOutcome α) :
    Span × HandlerOutcome α :=
  let methodStr := methodAttr.getD ""
  let method_name := if methodStr = "" then "tools/call" else methodStr
  let nameStr := nameAttr.getD ""
  let tool_name := if nameStr = "" then "unknown" else nameStr
  let span_name := OpenTelemetryMiddleware._span_name method_name (some tool_name)
  let attrs0 : List (String × AttrVal) :=
    [("mcp.method.name", .str method_name),
     ("gen_ai.tool.name", .str tool_name),
     ("gen_ai.operation.name", .str "execute_tool")]
  let attrs1 :=
    match toolArgsJson with
    | some j => attrs0 ++ [("gen_ai.tool.call.arguments", .str j)]
    | none => attrs0
  match next with
  | .ok r =>
    ({ name := span_name,
       attributes := attrs1 ++ [("mcp.tool.success", .bool true)],
       status := .ok, recorded := [] }, .ok r)
  | .error e =>
    ({ name := span_name,
       attributes := attrs1 ++ [("mcp.tool.success", .bool false), ("mcp.tool.error", .str e)],
       status := .error e, recorded := [e] }, .error e)

/-! ## Specification helpers and fixtures -/

/-- Sequence of individual `get` results, threading the documents, used to
state that `get_many` is positionally aligned with its input keys. -/
def CosmosDBStore.getResults (f : ContainerFaults) (docs : Docs) (now : Time)
    (dc : String) (keys : List String) (collection : Option String) :
    Docs × List (Option ValueDict) :=
  match keys with
  | [] => (docs, [])
  | k :: ks =>
    let p := CosmosDBStore.get f docs now dc k collection
    let q := CosmosDBStore.getResults f p.1 now dc ks collection
    (q.1, (match p.2 with | .ok v => v | .error _ => none) :: q.2)

/-- Sequence of individual `ttl` results, threading the documents. -/
def CosmosDBStore.ttlResults (f : ContainerFaults) (docs : Docs) (now : Time)
    (dc : String) (keys : List String) (collection : Option String) :
    Docs × List (Option ValueDict × Option Time) :=
  match keys with
  | [] => (docs, [])
  | k :: ks =>
    let p := CosmosDBStore.ttl f docs now dc k collection
    let q := CosmosDBStore.ttlResults f p.1 now dc ks collection
    (q.1, (match p.2 with | .ok v => v | .error _ => (none, none)) :: q.2)

/-- Sequence of individual `delete` results, threading the documents, used
to state that `delete_many` counts exactly the successful deletions. -/
def CosmosDBStore.deleteResults (f : ContainerFaults) (docs : Docs) (dc : String)
    (keys : List String) (collection : Option String) : Docs × List Bool :=
  match keys with
  | [] => (docs, [])
  | k :: ks =>
    let p := CosmosDBStore.delete f docs dc k collection
    let q := CosmosDBStore.deleteResults f p.1 dc ks collection
    (q.1, p.2 :: q.2)

/-- Fault-free backend behavior, for concrete witnesses. -/
def noFaults : ContainerFaults :=
  { readFault := fun _ _ => none,
    upsertFault := fun _ => none,
    deleteFault := fun _ _ => none }

/-- Backend behavior whose reads always raise a transport error. -/
def readAlwaysFails : ContainerFaults :=
  { readFault := fun _ _ => some "transport down",
    upsertFault := fun _ => none,
    deleteFault := fun _ _ => none }

/-- Backend behavior whose deletes always raise a transport error. -/
def deleteAlwaysFails : ContainerFaults :=
  { readFault := fun _ _ => none,
    upsertFault := fun _ => none,
    deleteFault := fun _ _ => some "transport down" }

/-- Document written by the example `put` used in several witnesses. -/
def exampleDoc : Document :=
  CosmosDBStore.putDocument 0 "default" "k" [("a", "b")] none (some 60)

/-! ## Helper lemmas -/

/-- Serialization round-trip for entries whose `created_at` is set (which
the store's constructor guarantees). -/
lemma from_dict_to_dict (now' : Time) (e : ManagedEntry) :
    ManagedEntry.from_dict now' e.to_dict = e := by
  cases e with
  | mk v ca ea => cases ea <;> rfl

/-- Resolving an already-resolved collection is a no-op, so the cleanup
`delete` inside `get`/`ttl` targets the same partition as the read. -/
lemma resolve_resolve (dc : String) (c : Option String) :
    CosmosDBStore.resolveCollection dc (some (CosmosDBStore.resolveCollection dc c)) =
      CosmosDBStore.resolveCollection dc c := by
  cases c with
  | none => simp [CosmosDBStore.resolveCollection]
  | some s =>
    by_cases hs : s = "" <;> simp [CosmosDBStore.resolveCollection, hs]

/-- The `try` of `get` catches every exception, so `get` always returns. -/
lemma get_isOk (f : ContainerFaults) (docs : Docs) (now : Time) (dc key : String)
    (coll : Option String) : ∃ v, (CosmosDBStore.get f docs now dc key coll).2 = .ok v := by
  unfold CosmosDBStore.get
  rcases hr : f.read_item docs (CosmosDBStore._make_document_id
      (CosmosDBStore.resolveCollection dc coll) key)
      (CosmosDBStore.resolveCollection dc coll) with e | item
  · cases e <;> simp [hr]
  · simp only [hr]
    split <;> simp

/-- The `try` of `ttl` catches every exception, so `ttl` always returns. -/
lemma ttl_isOk (f : ContainerFaults) (docs : Docs) (now : Time) (dc key : String)
    (coll : Option String) : ∃ p, (CosmosDBStore.ttl f docs now dc key coll).2 = .ok p := by
  unfold CosmosDBStore.ttl
  rcases hr : f.read_item docs (CosmosDBStore._make_document_id
      (CosmosDBStore.resolveCollection dc coll) key)
      (CosmosDBStore.resolveCollection dc coll) with e | item
  · cases e <;> simp [hr]
  · simp only [hr]
    split <;> simp

/-- Splitting a character list at a separator absent from both prefixes is
unambiguous. -/
lemma colon_split_inj (l1 : List Char) : ∀ (l2 r1 r2 : List Char), ':' ∉ l1 → ':' ∉ l2 →
    l1 ++ ':' :: r1 = l2 ++ ':' :: r2 → l1 = l2 ∧ r1 = r2 := by
  induction l1 with
  | nil =>
    intro l2 r1 r2 _ h2 h
    cases l2 with
    | nil => simpa using h
    | cons a t =>
      simp only [List.nil_append, List.cons_append, List.cons.injEq] at h
      exact absurd (h.1 ▸ List.mem_cons_self a t) (by simp_all)
  | cons a t ih =>
    intro l2 r1 r2 h1 h2 h
    cases l2 with
    | nil =>
      simp only [List.nil_append, List.cons_append, List.cons.injEq] at h
      exact absurd (h.1 ▸ List.mem_cons_self a t) (by simp_all)
    | cons b u =>
      simp only [List.cons_append, List.cons.injEq] at h
      obtain ⟨hab, htail⟩ := h
      have := ih u r1 r2 (by simp_all) (by simp_all) htail
      exact ⟨by simp [hab, this.1], this.2⟩

/-- The compound id `collection ++ ":" ++ key` is injective as long as the
collection name contains no colon. -/
lemma make_document_id_inj (c1 k1 c2 k2 : String)
    (h1 : ':' ∉ c1.data) (h2 : ':' ∉ c2.data)
    (h : CosmosDBStore._make_document_id c1 k1 = CosmosDBStore._make_document_id c2 k2) :
    c1 = c2 ∧ k1 = k2 := by
  unfold CosmosDBStore._make_document_id at h
  have hd := congrArg String.data h
  simp only [String.data_append] at hd
  rw [List.append_assoc, List.append_assoc] at hd
  simp only [List.singleton_append] at hd
  have := colon_split_inj c1.data c2.data k1.data k2.data h1 h2 hd
  exact ⟨String.ext this.1, String.ext this.2⟩

/-- The loop of `delete_many` returns the count of successful `delete`s. -/
lemma delete_many_eq_results (f : ContainerFaults) (dc : String) (coll : Option String) :
    ∀ (keys : List String) (docs : Docs),
      CosmosDBStore.delete_many f docs dc keys coll =
        ((CosmosDBStore.deleteResults f docs dc keys coll).1,
         (CosmosDBStore.deleteResults f docs dc keys coll).2.count true) := by
  intro keys
  induction keys with
  | nil => intro docs; simp [CosmosDBStore.delete_many, CosmosDBStore.deleteResults]
  | cons k ks ih =>
    intro docs
    simp only [CosmosDBStore.delete_many, CosmosDBStore.deleteResults, ih, List.count_cons]
    cases (CosmosDBStore.delete f docs dc k coll).2 <;> simp [Nat.add_comm]

/-- Because `get` never raises, `get_many` returns the positionally aligned
list of individual `get` results. -/
lemma get_many_eq_results (f : ContainerFaults) (now : Time) (dc : String)
    (coll : Option String) :
    ∀ (keys : List String) (docs : Docs),
      CosmosDBStore.get_many f docs now dc keys coll =
        ((CosmosDBStore.getResults f docs now dc keys coll).1,
         .ok (CosmosDBStore.getResults f docs now dc keys coll).2) := by
  intro keys
  induction keys with
  | nil => intro docs; simp [CosmosDBStore.get_many, CosmosDBStore.getResults]
  | cons k ks ih =>
    intro docs
    obtain ⟨v, hv⟩ := get_isOk f docs now dc k coll
    simp only [CosmosDBStore.get_many, CosmosDBStore.getResults, hv, ih]

/-- One `get` result per input key. -/
lemma getResults_length (f : ContainerFaults) (now : Time) (dc : String)
    (coll : Option String) :
    ∀ (keys : List String) (docs : Docs),
      (CosmosDBStore.getResults f docs now dc keys coll).2.length = keys.length := by
  intro keys
  induction keys with
  | nil => intro docs; simp [CosmosDBStore.getResults]
  | cons k ks ih => intro docs; simp [CosmosDBStore.getResults, ih]

/-- Because `ttl` never raises, `ttl_many` returns the positionally aligned
list of individual `ttl` results. -/
lemma ttl_many_eq_results (f : ContainerFaults) (now : Time) (dc : String)
    (coll : Option String) :
    ∀ (keys : List String) (docs : Docs),
      CosmosDBStore.ttl_many f docs now dc keys coll =
        ((CosmosDBStore.ttlResults f docs now dc keys coll).1,
         .ok (CosmosDBStore.ttlResults f docs now dc keys coll).2) := by
  intro keys
  induction keys with
  | nil => intro docs; simp [CosmosDBStore.ttl_many, CosmosDBStore.ttlResults]
  | cons k ks ih =>
    intro docs
    obtain ⟨p, hp⟩ := ttl_isOk f docs now dc k coll
    simp only [CosmosDBStore.ttl_many, CosmosDBStore.ttlResults, hp, ih]

/-- One `ttl` result per input key. -/
lemma ttlResults_length (f : ContainerFaults) (now : Time) (dc : String)
    (coll : Option String) :
    ∀ (keys : List String) (docs : Docs),
      (CosmosDBStore.ttlResults f docs now dc keys coll).2.length = keys.length := by
  intro keys
  induction keys with
  | nil => intro docs; simp [CosmosDBStore.ttlResults]
  | cons k ks ih => intro docs; simp [CosmosDBStore.ttlResults, ih]

/-! ## Claim theorems -/

/-- C1: `put` then `get` on the same `(collection, key)` — with the upsert
and the read succeeding on the backend, and the written entry not yet
expired at read time (no `ttl` or a non-positive one, or
`now' < now + ttl`) — returns exactly the value written. -/
theorem claim_C1_put_get_roundtrip :
    ∀ (f : ContainerFaults) (docs : Docs) (now now' : Time) (dc key : String)
      (value : ValueDict) (coll : Option String) (ttl : Option Time),
      f.upsertFault (CosmosDBStore.putDocument now dc key value coll ttl) = none →
      f.readFault (CosmosDBStore._make_document_id (CosmosDBStore.resolveCollection dc coll) key)
        (CosmosDBStore.resolveCollection dc coll) = none →
      (∀ t : Time, ttl = some t → 0 < t → now' < now + t) →
      (CosmosDBStore.put f docs now dc key value coll ttl).2 = .ok () ∧
      (CosmosDBStore.get f (CosmosDBStore.put f docs now dc key value coll ttl).1
          now' dc key coll).2 = .ok (some value) := by
  intro f docs now now' dc key value coll ttl hU hR hT
  refine ⟨by simp only [CosmosDBStore.put, ContainerFaults.upsert_item, hU], ?_⟩
  simp only [CosmosDBStore.put, ContainerFaults.upsert_item, hU]
  rcases ttl with _ | t
  · simp [CosmosDBStore.get, ContainerFaults.read_item, hR, Docs.lookup,
      CosmosDBStore.putDocument, ManagedEntry.to_dict, ManagedEntry.from_dict,
      ManagedEntry.construct, ManagedEntry.is_expired]
  · by_cases ht : 0 < t
    · have hlt := hT t rfl ht
      simp [CosmosDBStore.get, ContainerFaults.read_item, hR, Docs.lookup,
        CosmosDBStore.putDocument, ManagedEntry.to_dict, ManagedEntry.from_dict,
        ManagedEntry.construct, ManagedEntry.is_expired, ht, lt_asymm hlt]
    · simp [CosmosDBStore.get, ContainerFaults.read_item, hR, Docs.lookup,
        CosmosDBStore.putDocument, ManagedEntry.to_dict, ManagedEntry.from_dict,
        ManagedEntry.construct, ManagedEntry.is_expired, ht]

/-- C1, witness: write `[("a", "b")]` at time 0 with a 60 second TTL, read
it back at time 1. -/
theorem claim_C1_witness :
    (CosmosDBStore.put noFaults [] 0 "default" "k" [("a", "b")] none (some 60)).2 = .ok () ∧
    (CosmosDBStore.get noFaults
        (CosmosDBStore.put noFaults [] 0 "default" "k" [("a", "b")] none (some 60)).1
        1 "default" "k" none).2 = .ok (some [("a", "b")]) :=
  claim_C1_put_get_roundtrip noFaults [] 0 1 "default" "k" [("a", "b")] none (some 60)
    rfl rfl (by intro t ht hpos; injection ht with h; subst h; norm_num)

/-- C2: reading a stored document whose `expires_at` lies before the clock
deletes it from the backend and returns absent — `None` from `get`,
`(None, None)` from `ttl` — while a document without `expires_at` is never
treated as expired. -/
theorem claim_C2_lazy_expiration :
    ∀ (f : ContainerFaults) (docs : Docs) (now : Time) (dc key : String)
      (coll : Option String) (d : Document) (te : Time),
      f.readFault (CosmosDBStore._make_document_id (CosmosDBStore.resolveCollection dc coll) key)
        (CosmosDBStore.resolveCollection dc coll) = none →
      docs.lookup (CosmosDBStore._make_document_id (CosmosDBStore.resolveCollection dc coll) key)
        (CosmosDBStore.resolveCollection dc coll) = some d →
      d.entry.expires_at = some te →
      te < now →
      f.deleteFault (CosmosDBStore._make_document_id (CosmosDBStore.resolveCollection dc coll) key)
        (CosmosDBStore.resolveCollection dc coll) = none →
      CosmosDBStore.get f docs now dc key coll =
        (docs.filter (fun x =>
          !(x.id == CosmosDBStore._make_document_id (CosmosDBStore.resolveCollection dc coll) key &&
            x.collection == CosmosDBStore.resolveCollection dc coll)), .ok none) ∧
      CosmosDBStore.ttl f docs now dc key coll =
        (docs.filter (fun x =>
          !(x.id == CosmosDBStore._make_document_id (CosmosDBStore.resolveCollection dc coll) key &&
            x.collection == CosmosDBStore.resolveCollection dc coll)), .ok (none, none)) ∧
      (∀ e : ManagedEntry, e.expires_at = none → e.is_expired now = false) := by
  intro f docs now dc key coll d te hR hL hE hlt hD
  have hrr := resolve_resolve dc coll
  refine ⟨?_, ?_, ?_⟩
  · simp only [CosmosDBStore.get, ContainerFaults.read_item, hR, hL,
      ManagedEntry.from_dict, ManagedEntry.construct, hE, ManagedEntry.is_expired,
      CosmosDBStore.delete, ContainerFaults.delete_item, hrr, hD]
    simp [hlt, hL]
  · simp only [CosmosDBStore.ttl, ContainerFaults.read_item, hR, hL,
      ManagedEntry.from_dict, ManagedEntry.construct, hE, ManagedEntry.is_expired,
      CosmosDBStore.delete, ContainerFaults.delete_item, hrr, hD]
    simp [hlt, hL]
  · intro e he
    simp [ManagedEntry.is_expired, he]

/-- C2, witness: the document written at time 0 with a 60 second TTL,
read at time 100: both `get` and `ttl` delete it and return absent. -/
theorem claim_C2_witness :
    CosmosDBStore.get noFaults [exampleDoc] 100 "default" "k" none = ([], .ok none) ∧
    CosmosDBStore.ttl noFaults [exampleDoc] 100 "default" "k" none = ([], .ok (none, none)) := by
  have h := claim_C2_lazy_expiration noFaults [exampleDoc] 100 "default" "k" none exampleDoc
    (0 + 60) rfl rfl rfl (by norm_num) rfl
  exact ⟨by rw [h.1]; rfl, by rw [h.2.1]; rfl⟩

/-- C6: the read path never raises.  An injected transport error or a
missing document degrades `get` to `None` and `ttl` to `(None, None)`
without touching the store; for every backend behavior the results are
`.ok`; and `get_many`/`ttl_many` return the positionally aligned sequential
per-key results, one per input key. -/
theorem claim_C6_read_path_never_raises :
    ∀ (f : ContainerFaults) (docs : Docs) (now : Time) (dc key : String)
      (coll : Option String),
      (∀ msg, f.readFault
          (CosmosDBStore._make_document_id (CosmosDBStore.resolveCollection dc coll) key)
          (CosmosDBStore.resolveCollection dc coll) = some msg →
        CosmosDBStore.get f docs now dc key coll = (docs, .ok none) ∧
        CosmosDBStore.ttl f docs now dc key coll = (docs, .ok (none, none))) ∧
      (f.readFault (CosmosDBStore._make_document_id (CosmosDBStore.resolveCollection dc coll) key)
          (CosmosDBStore.resolveCollection dc coll) = none →
        docs.lookup (CosmosDBStore._make_document_id (CosmosDBStore.resolveCollection dc coll) key)
          (CosmosDBStore.resolveCollection dc coll) = none →
        CosmosDBStore.get f docs now dc key coll = (docs, .ok none) ∧
        CosmosDBStore.ttl f docs now dc key coll = (docs, .ok (none, none))) ∧
      (∃ v, (CosmosDBStore.get f docs now dc key coll).2 = .ok v) ∧
      (∃ p, (CosmosDBStore.ttl f docs now dc key coll).2 = .ok p) ∧
      (∀ keys : List String,
        CosmosDBStore.get_many f docs now dc keys coll =
          ((CosmosDBStore.getResults f docs now dc keys coll).1,
            .ok (CosmosDBStore.getResults f docs now dc keys coll).2) ∧
        (CosmosDBStore.getResults f docs now dc keys coll).2.length = keys.length) ∧
      (∀ keys : List String,
        CosmosDBStore.ttl_many f docs now dc keys coll =
          ((CosmosDBStore.ttlResults f docs now dc keys coll).1,
            .ok (CosmosDBStore.ttlResults f docs now dc keys coll).2) ∧
        (CosmosDBStore.ttlResults f docs now dc keys coll).2.length = keys.length) := by
  intro f docs now dc key coll
  refine ⟨?_, ?_, get_isOk f docs now dc key coll, ttl_isOk f docs now dc key coll, ?_, ?_⟩
  · intro msg h
    constructor
    · simp only [CosmosDBStore.get, ContainerFaults.read_item, h]
    · simp only [CosmosDBStore.ttl, ContainerFaults.read_item, h]
  · intro h hL
    constructor
    · simp only [CosmosDBStore.get, ContainerFaults.read_item, h, hL]
    · simp only [CosmosDBStore.ttl, ContainerFaults.read_item, h, hL]
  · intro keys
    exact ⟨get_many_eq_results f now dc coll keys docs,
      getResults_length f now dc coll keys docs⟩
  · intro keys
    exact ⟨ttl_many_eq_results f now dc coll keys docs,
      ttlResults_length f now dc coll keys docs⟩

/-- C6, witness: with the backend raising a transport error on every read,
`get` and `ttl` still return absent results on a nonempty store. -/
theorem claim_C6_witness :
    CosmosDBStore.get readAlwaysFails [exampleDoc] 1 "default" "k" none =
      ([exampleDoc], .ok none) ∧
    CosmosDBStore.ttl readAlwaysFails [exampleDoc] 1 "default" "k" none =
      ([exampleDoc], .ok (none, none)) :=
  (claim_C6_read_path_never_raises readAlwaysFails [exampleDoc] 1 "default" "k" none).1
    "transport down" rfl

/-- C9: `delete` returns true exactly when the backend deleted the
document, false when the document was absent, and false (without raising)
when the backend raised any other error; `delete_many` returns the count of
keys whose sequential `delete` returned true. -/
theorem claim_C9_delete_semantics :
    ∀ (f : ContainerFaults) (docs : Docs) (dc key : String) (coll : Option String),
      (∀ d, f.deleteFault
          (CosmosDBStore._make_document_id (CosmosDBStore.resolveCollection dc coll) key)
          (CosmosDBStore.resolveCollection dc coll) = none →
        docs.lookup (CosmosDBStore._make_document_id (CosmosDBStore.resolveCollection dc coll) key)
          (CosmosDBStore.resolveCollection dc coll) = some d →
        CosmosDBStore.delete f docs dc key coll =
          (docs.filter (fun x =>
            !(x.id == CosmosDBStore._make_document_id (CosmosDBStore.resolveCollection dc coll) key &&
              x.collection == CosmosDBStore.resolveCollection dc coll)), true)) ∧
      (f.deleteFault (CosmosDBStore._make_document_id (CosmosDBStore.resolveCollection dc coll) key)
          (CosmosDBStore.resolveCollection dc coll) = none →
        docs.lookup (CosmosDBStore._make_document_id (CosmosDBStore.resolveCollection dc coll) key)
          (CosmosDBStore.resolveCollection dc coll) = none →
        CosmosDBStore.delete f docs dc key coll = (docs, false)) ∧
      (∀ msg, f.deleteFault
          (CosmosDBStore._make_document_id (CosmosDBStore.resolveCollection dc coll) key)
          (CosmosDBStore.resolveCollection dc coll) = some msg →
        CosmosDBStore.delete f docs dc key coll = (docs, false)) ∧
      (∀ keys : List String,
        CosmosDBStore.delete_many f docs dc keys coll =
          ((CosmosDBStore.deleteResults f docs dc keys coll).1,
           (CosmosDBStore.deleteResults f docs dc keys coll).2.count true)) := by
  intro f docs dc key coll
  refine ⟨?_, ?_, ?_, fun keys => delete_many_eq_results f dc coll keys docs⟩
  · intro d hD hL
    simp only [CosmosDBStore.delete, ContainerFaults.delete_item, hD, hL]
  · intro hD hL
    simp only [CosmosDBStore.delete, ContainerFaults.delete_item, hD, hL]
  · intro msg hD
    simp only [CosmosDBStore.delete, ContainerFaults.delete_item, hD]

/-- C9, witness: the fault-free delete of the stored example document
returns true and removes it; with a failing backend delete the same call
returns false and leaves the store as it was. -/
theorem claim_C9_witness :
    CosmosDBStore.delete noFaults [exampleDoc] "default" "k" none = ([], true) ∧
    CosmosDBStore.delete deleteAlwaysFails [exampleDoc] "default" "k" none =
      ([exampleDoc], false) := by
  have h1 := (claim_C9_delete_semantics noFaults [exampleDoc] "default" "k" none).1
    exampleDoc rfl rfl
  have h2 := (claim_C9_delete_semantics deleteAlwaysFails [exampleDoc] "default" "k" none).2.2.1
    "transport down" rfl
  exact ⟨by rw [h1]; rfl, h2⟩

/-- C10: for every `ManagedEntry` as constructed by the store (`created_at`
always set, `expires_at` optional), `ManagedEntry.from_dict` applied to
`ManagedEntry.to_dict` reproduces the entry exactly — same `value`,
`created_at` and `expires_at` — whatever the clock reads at parse time. -/
theorem claim_C10_entry_serialization_roundtrip (now' : Time) (e : ManagedEntry) :
    ManagedEntry.from_dict now' e.to_dict = e :=
  from_dict_to_dict now' e

/-- C8, counterexample: the claim "distinct (collection, key) pairs always
produce distinct ids" is false, because the plain `":"` separator is also a
legal character inside the pair's components: `("a:b", "c")` and
`("a", "b:c")` are distinct pairs with the same document id `"a:b:c"`. -/
theorem claim_C8_counterexample :
    CosmosDBStore._make_document_id "a:b" "c" = CosmosDBStore._make_document_id "a" "b:c" ∧
    ("a:b", "c") ≠ (("a" : String), ("b:c" : String)) :=
  ⟨rfl, by decide⟩

/-- C8 (amended): the document id is a deterministic function of
`(collection, key)`, and it is collision-free on every pair whose collection
name contains no `':'` separator character (distinct such pairs always
produce distinct ids). -/
theorem claim_C8_document_id_deterministic_collision_free :
    ∀ (c1 k1 c2 k2 : String),
      (c1 = c2 → k1 = k2 →
        CosmosDBStore._make_document_id c1 k1 = CosmosDBStore._make_document_id c2 k2) ∧
      (':' ∉ c1.data → ':' ∉ c2.data →
        CosmosDBStore._make_document_id c1 k1 = CosmosDBStore._make_document_id c2 k2 →
        c1 = c2 ∧ k1 = k2) := by
  intro c1 k1 c2 k2
  exact ⟨fun h1 h2 => by rw [h1, h2],
    fun h1 h2 h => make_document_id_inj c1 k1 c2 k2 h1 h2 h⟩

/-- C4: `put` with `ttl = t > 0` stores `expires_at = now + t` on the entry
and the native Cosmos `ttl` hint `int(t)` on the document; with `ttl`
absent or `≤ 0` it stores neither.  With a fault-free upsert, exactly the
built document is stored under its `(id, partition key)`. -/
theorem claim_C4_put_ttl_semantics :
    ∀ (now : Time) (dc key : String) (value : ValueDict) (coll : Option String)
      (ttl : Option Time),
      (∀ t : Time, ttl = some t → 0 < t →
        (CosmosDBStore.putDocument now dc key value coll ttl).entry.expires_at = some (now + t) ∧
        (CosmosDBStore.putDocument now dc key value coll ttl).ttl = some ⌊t⌋) ∧
      ((ttl = none ∨ ∃ t, ttl = some t ∧ t ≤ 0) →
        (CosmosDBStore.putDocument now dc key value coll ttl).entry.expires_at = none ∧
        (CosmosDBStore.putDocument now dc key value coll ttl).ttl = none) ∧
      (∀ (f : ContainerFaults) (docs : Docs),
        f.upsertFault (CosmosDBStore.putDocument now dc key value coll ttl) = none →
        (CosmosDBStore.put f docs now dc key value coll ttl).2 = .ok () ∧
        ((CosmosDBStore.put f docs now dc key value coll ttl).1.lookup
            (CosmosDBStore._make_document_id (CosmosDBStore.resolveCollection dc coll) key)
            (CosmosDBStore.resolveCollection dc coll)) =
          some (CosmosDBStore.putDocument now dc key value coll ttl)) := by
  intro now dc key value coll ttl
  refine ⟨?_, ?_, ?_⟩
  · intro t ht hpos
    subst ht
    simp [CosmosDBStore.putDocument, ManagedEntry.to_dict, hpos]
  · rintro (rfl | ⟨t, rfl, ht⟩)
    · simp [CosmosDBStore.putDocument, ManagedEntry.to_dict]
    · simp [CosmosDBStore.putDocument, ManagedEntry.to_dict, not_lt.mpr ht]
  · intro f docs hU
    constructor
    · simp only [CosmosDBStore.put, ContainerFaults.upsert_item, hU]
    · simp only [CosmosDBStore.put, ContainerFaults.upsert_item, hU]
      simp [Docs.lookup, CosmosDBStore.putDocument]

/-- C4, witness: a put at time 0 with `ttl = 1.5` seconds yields
`expires_at = 1.5` and the truncated native hint `ttl = 1`. -/
theorem claim_C4_witness :
    (CosmosDBStore.putDocument 0 "default" "k" [("a", "b")] none
        (some (3/2))).entry.expires_at = some (3/2) ∧
    (CosmosDBStore.putDocument 0 "default" "k" [("a", "b")] none
        (some (3/2))).ttl = some 1 := by
  have := (claim_C4_put_ttl_semantics 0 "default" "k" [("a", "b")] none (some (3/2))).1
    (3/2) rfl (by norm_num)
  constructor
  · rw [this.1]; norm_num
  · rw [this.2]; norm_num

/-- C5: `put_many` with mismatched key/value lengths raises `ValueError`
with the store untouched; with matching lengths it is exactly the
sequential per-pair `put` loop over the zipped input, in input order. -/
theorem claim_C5_put_many_validation :
    ∀ (f : ContainerFaults) (docs : Docs) (now : Time) (dc : String)
      (keys : List String) (values : List ValueDict) (coll : Option String)
      (ttl : Option Time),
      (keys.length ≠ values.length →
        CosmosDBStore.put_many f docs now dc keys values coll ttl =
          (docs, .error (.valueError "Number of keys must match number of values"))) ∧
      (keys.length = values.length →
        CosmosDBStore.put_many f docs now dc keys values coll ttl =
          CosmosDBStore.putPairs f docs now dc (keys.zip values) coll ttl) := by
  intro f docs now dc keys values coll ttl
  constructor <;> intro h <;> simp [CosmosDBStore.put_many, h]

/-- C5, witness: one key against zero values raises the `ValueError` and
leaves the (empty) store unchanged. -/
theorem claim_C5_witness :
    CosmosDBStore.put_many noFaults [] 0 "d" ["a"] [] none none =
      ([], .error (.valueError "Number of keys must match number of values")) :=
  (claim_C5_put_many_validation noFaults [] 0 "d" ["a"] [] none none).1 (by decide)

/-- C8, witness: the amended theorem applied to the concrete colon-free
collections `"users"`, `"oauth-clients"` and keys `"k1"`, `"k1"`. -/
theorem claim_C8_witness :
    (("users", "k1") = (("users" : String), ("k1" : String))) ∧
    (CosmosDBStore._make_document_id "users" "k1" ≠
      CosmosDBStore._make_document_id "oauth-clients" "k1") := by
  refine ⟨?_, ?_⟩
  · have := (claim_C8_document_id_deterministic_collision_free "users" "k1" "users" "k1").2
      (by decide) (by decide) rfl
    simp [this.1, this.2]
  · intro h
    have := (claim_C8_document_id_deterministic_collision_free "users" "k1"
      "oauth-clients" "k1").2 (by decide) (by decide) h
    exact absurd this.1 (by decide)

/-- Reading back the key just written into the per-request state. -/
lemma get_set_state (st : RequestState) (k : String) (v : Option String) :
    (st.set_state k v).get_state k = v := by
  simp [RequestState.set_state, RequestState.get_state]

/-- C3: on a tool or resource call (a FastMCP context present), the
middleware publishes exactly the resolved identity under `user_id`: the
state reads back as the `oid` claim when present, else the `sub` claim,
else absent; the state is populated (`isSome`) iff a claim resolved, and
resolution is a total function — no claim never raises, it leaves the
state reading back as absent. -/
theorem claim_C3_auth_middleware_user_id :
    ∀ (token : Option AccessToken) (st : RequestState),
      ((UserAuthMiddleware.on_call_tool token true st).get_state "user_id" =
        UserAuthMiddleware._get_user_id token) ∧
      (((UserAuthMiddleware.on_call_tool token true st).get_state "user_id").isSome ↔
        (UserAuthMiddleware._get_user_id token).isSome) ∧
      (∀ t, token = some t →
        (∀ oid, t.getClaim "oid" = some oid →
          UserAuthMiddleware._get_user_id token = some oid) ∧
        (t.getClaim "oid" = none →
          UserAuthMiddleware._get_user_id token = t.getClaim "sub")) ∧
      (token = none → UserAuthMiddleware._get_user_id token = none) := by
  intro token st
  have h1 : (UserAuthMiddleware.on_call_tool token true st).get_state "user_id" =
      UserAuthMiddleware._get_user_id token := by
    simp [UserAuthMiddleware.on_call_tool, get_set_state]
  refine ⟨h1, by rw [h1], ?_, ?_⟩
  · rintro t rfl
    constructor
    · intro oid h
      simp [UserAuthMiddleware._get_user_id, h]
    · intro h
      simp [UserAuthMiddleware._get_user_id, h]
  · rintro rfl
    rfl

/-- C3, witness: a token with both claims resolves to `oid`, a token with
no `oid` falls back to `sub`, and a missing token leaves the state reading
back as absent. -/
theorem claim_C3_witness :
    ((UserAuthMiddleware.on_call_tool
        (some { claims := [("oid", "u1"), ("sub", "s1")] }) true []).get_state "user_id" =
      some "u1") ∧
    ((UserAuthMiddleware.on_call_tool
        (some { claims := [("scp", "x"), ("sub", "s1")] }) true []).get_state "user_id" =
      some "s1") ∧
    ((UserAuthMiddleware.on_call_tool none true []).get_state "user_id" = none) := by
  refine ⟨?_, ?_, ?_⟩
  · rw [(claim_C3_auth_middleware_user_id
      (some { claims := [("oid", "u1"), ("sub", "s1")] }) []).1]
    rfl
  · rw [(claim_C3_auth_middleware_user_id
      (some { claims := [("scp", "x"), ("sub", "s1")] }) []).1]
    rfl
  · rw [(claim_C3_auth_middleware_user_id none []).1]
    rfl

/-- C7: the telemetry middleware re-raises the handler's exception
unchanged — never converting it into a normal result — after marking the
span `mcp.tool.success = false`, attaching `str(e)` as `mcp.tool.error`,
setting an ERROR status carrying `str(e)` and recording the exception; on
success it marks `mcp.tool.success = true`, sets an OK status and returns
the handler's result unchanged. -/
theorem claim_C7_telemetry_error_propagation :
    ∀ (α : Type) (methodAttr nameAttr toolArgsJson : Option String)
      (next : HandlerOutcome α),
      ((OpenTelemetryMiddleware.on_call_tool methodAttr nameAttr toolArgsJson next).2 = next) ∧
      (∀ e, next = .error e →
        ((OpenTelemetryMiddleware.on_call_tool methodAttr nameAttr toolArgsJson next).1.getAttr
            "mcp.tool.success" = some (.bool false)) ∧
        ((OpenTelemetryMiddleware.on_call_tool methodAttr nameAttr toolArgsJson next).1.getAttr
            "mcp.tool.error" = some (.str e)) ∧
        ((OpenTelemetryMiddleware.on_call_tool methodAttr nameAttr toolArgsJson next).1.status =
          .error e) ∧
        ((OpenTelemetryMiddleware.on_call_tool methodAttr nameAttr toolArgsJson next).1.recorded =
          [e]) ∧
        ((OpenTelemetryMiddleware.on_call_tool methodAttr nameAttr toolArgsJson next).2 =
          .error e)) ∧
      (∀ r, next = .ok r →
        ((OpenTelemetryMiddleware.on_call_tool methodAttr nameAttr toolArgsJson next).1.getAttr
            "mcp.tool.success" = some (.bool true)) ∧
        ((OpenTelemetryMiddleware.on_call_tool methodAttr nameAttr toolArgsJson next).1.status =
          .ok) ∧
        ((OpenTelemetryMiddleware.on_call_tool methodAttr nameAttr toolArgsJson next).2 =
          .ok r)) := by
  intro α methodAttr nameAttr toolArgsJson next
  refine ⟨by cases next <;> rfl, ?_, ?_⟩
  · intro e he
    subst he
    cases toolArgsJson <;> exact ⟨rfl, rfl, rfl, rfl, rfl⟩
  · intro r hr
    subst hr
    cases toolArgsJson <;> exact ⟨rfl, rfl, rfl⟩

/-- C7, witness: a handler raising `"boom"` under the span
`"tools/call add"` yields success=false, the error attribute `"boom"`, an
ERROR status, the recorded exception, and the re-raised error. -/
theorem claim_C7_witness :
    ((OpenTelemetryMiddleware.on_call_tool (some "tools/call") (some "add") none
        (Except.error "boom" : HandlerOutcome ℕ)).1.getAttr "mcp.tool.success" =
      some (.bool false)) ∧
    ((OpenTelemetryMiddleware.on_call_tool (some "tools/call") (some "add") none
        (Except.error "boom" : HandlerOutcome ℕ)).1.getAttr "mcp.tool.error" =
      some (.str "boom")) ∧
    ((OpenTelemetryMiddleware.on_call_tool (some "tools/call") (some "add") none
        (Except.error "boom" : HandlerOutcome ℕ)).1.status = .error "boom") ∧
    ((OpenTelemetryMiddleware.on_call_tool (some "tools/call") (some "add") none
        (Except.error "boom" : HandlerOutcome ℕ)).1.recorded = ["boom"]) ∧
    ((OpenTelemetryMiddleware.on_call_tool (some "tools/call") (some "add") none
        (Except.error "boom" : HandlerOutcome ℕ)).2 = .error "boom") :=
  (claim_C7_telemetry_error_propagation ℕ (some "tools/call") (some "add") none
    (Except.error "boom")).2.1 "boom" rfl
